import Mathlib

/-!
Verification of the cogmemai-mcp session-lifecycle engine.

This file shallowly embeds the hook handlers of `src/cli.ts`, the
configuration constants of `src/config.ts`, and the retrying HTTP client
`fetchWithRetry` of the API wrapper, as pure Lean functions.  Filesystem
reads are represented by a `FileState` value (absent / unparsable /
parsed), network calls by environment-provided outcomes (`none` models a
thrown network or timeout error), and JS strings by `List Char`.  Each
hook returns an explicit record of the effects it performed (files
written or deleted, remote calls attempted, text printed), which the
theorems below inspect.
-/

/-! ## Configuration constants (src/config.ts) -/

def SESSION_EXPIRY_SECONDS : Nat := 14400

def COMPACTION_FLAG_MAX_AGE : Nat := 3600

def STALE_FLAG_MAX_AGE : Nat := 86400

def SMART_RECALL_COOLDOWN : Nat := 180

def SMART_RECALL_MAX_CHARS : Nat := 1500

def SMART_RECALL_MIN_MSG_LENGTH : Nat := 30

def SMART_RECALL_MIN_MATCH_SCORE : Nat := 2

def AUTO_EXTRACT_COOLDOWN : Nat := 7200

def AUTO_EXTRACT_MIN_USER_MESSAGES : Nat := 3

def AUTO_EXTRACT_MIN_MSG_LENGTH : Nat := 30

structure SummaryConfigT where
  minTranscriptLines : Nat
  minUserMessages : Nat
  maxSummaryChars : Nat
  hookTimeoutSeconds : Nat
  cooldownSeconds : Nat
deriving DecidableEq

def SUMMARY_CONFIG : SummaryConfigT :=
  { minTranscriptLines := 8
    minUserMessages := 2
    maxSummaryChars := 2000
    hookTimeoutSeconds := 20
    cooldownSeconds := 1800 }

structure RetryConfigT where
  maxRetries : Nat
  baseDelayMs : Nat
  maxDelayMs : Nat
  retryableStatusCodes : List Nat
deriving DecidableEq

def RETRY_CONFIG : RetryConfigT :=
  { maxRetries := 2
    baseDelayMs := 500
    maxDelayMs := 3000
    retryableStatusCodes := [408, 429, 500, 502, 503, 504] }

/-! ## Remote client (fetchWithRetry, src/api.ts)

One network attempt either yields an HTTP response (identified by its
status code) or throws a network/timeout error (identified by a message).
The whole run is modelled against an infinite schedule of attempt
outcomes; the trace records the final result, the backoff delays that
were slept between attempts, and how many attempts were made. -/

inductive AttemptOutcome where
  | response (status : Nat)
  | failure (err : List Char)
deriving DecidableEq

/-- `Response.ok` in JS: status in the inclusive range 200..299. -/
def statusOk (status : Nat) : Bool :=
  decide (200 ≤ status) && decide (status < 300)

/-- `retryDelay(attempt)`: `min(base * 2^attempt + jitter, maxDelay)`.
`jitter` models `Math.random() * 200`, an arbitrary value in `[0, 200)`. -/
def retryDelay (jitter : Nat → Nat) (attempt : Nat) : Nat :=
  min (RETRY_CONFIG.baseDelayMs * 2 ^ attempt + jitter attempt) RETRY_CONFIG.maxDelayMs

deriving instance DecidableEq for Except

structure RetryTrace where
  result : Except (List Char) Nat
  delays : List Nat
  attempts : Nat
deriving DecidableEq

/-- The body's `return res` condition: `res.ok || !retryable.includes(res.status)`.
A thrown error never returns immediately — it is retried while budget
remains and re-raised on the last attempt. -/
def immediateReturn : AttemptOutcome → Bool
  | .response s => statusOk s || !(RETRY_CONFIG.retryableStatusCodes.contains s)
  | .failure _ => false

/-- What one attempt surfaces if it is the one whose value is returned:
the response itself, or the caught error re-raised. -/
def outcomeResult : AttemptOutcome → Except (List Char) Nat
  | .response s => .ok s
  | .failure e => .error e

/-- The loop of `fetchWithRetry`: `attempt` is the current loop index,
`remaining` the number of loop iterations still allowed after this one
(`RETRY_CONFIG.maxRetries - attempt` at the top-level call).  A
non-retryable response returns at once; otherwise the outcome is retried
after a backoff delay while iterations remain, and surfaced as-is when
they do not. -/
def fetchWithRetryGo (outcomes : Nat → AttemptOutcome) (jitter : Nat → Nat) :
    Nat → Nat → RetryTrace
  | attempt, remaining =>
    if immediateReturn (outcomes attempt) then
      { result := outcomeResult (outcomes attempt), delays := [], attempts := 1 }
    else
      match remaining with
      | 0 => { result := outcomeResult (outcomes attempt), delays := [], attempts := 1 }
      | r + 1 =>
        let t := fetchWithRetryGo outcomes jitter (attempt + 1) r
        { result := t.result
          delays := retryDelay jitter attempt :: t.delays
          attempts := t.attempts + 1 }

/-- `fetchWithRetry`: run the retry loop from attempt 0 with the configured
retry budget. -/
def fetchWithRetry (outcomes : Nat → AttemptOutcome) (jitter : Nat → Nat) : RetryTrace :=
  fetchWithRetryGo outcomes jitter 0 RETRY_CONFIG.maxRetries

/-- A retryable attempt outcome: a response with an allow-listed status that
is not 2xx, or a thrown network/timeout error. -/
def retryableOutcome : AttemptOutcome → Prop
  | .response s => statusOk s = false ∧ s ∈ RETRY_CONFIG.retryableStatusCodes
  | .failure _ => True

instance : DecidablePred retryableOutcome := by
  intro o
  cases o <;> simp [retryableOutcome] <;> infer_instance

/-- The outcome schedule of the 503, 503, 200 retry scenario. -/
def scenario503 : Nat → AttemptOutcome :=
  fun k => if k < 2 then .response 503 else .response 200

example : (fetchWithRetry scenario503 (fun _ => 0)).result = .ok 200 := by decide

example : (fetchWithRetry scenario503 (fun _ => 0)).attempts = 3 := by decide

example : (fetchWithRetry scenario503 (fun _ => 0)).delays = [500, 1000] := by decide

example : (fetchWithRetry (fun _ => .response 404) (fun _ => 0)).attempts = 1 := by decide

theorem retryable_of_not_immediate (o : AttemptOutcome)
    (h : immediateReturn o = false) : retryableOutcome o := by
  cases o with
  | response s =>
    simp only [immediateReturn, Bool.or_eq_false_iff, Bool.not_eq_false'] at h
    refine ⟨h.1, ?_⟩
    have := h.2
    simpa using this
  | failure e => trivial

theorem fetchWithRetryGo_immediate_eq (outcomes : Nat → AttemptOutcome)
    (jitter : Nat → Nat) (attempt remaining : Nat)
    (h : immediateReturn (outcomes attempt) = true) :
    fetchWithRetryGo outcomes jitter attempt remaining =
      { result := outcomeResult (outcomes attempt), delays := [], attempts := 1 } := by
  conv_lhs => unfold fetchWithRetryGo
  cases remaining <;> simp [h]

theorem fetchWithRetryGo_zero_eq (outcomes : Nat → AttemptOutcome)
    (jitter : Nat → Nat) (attempt : Nat) :
    fetchWithRetryGo outcomes jitter attempt 0 =
      { result := outcomeResult (outcomes attempt), delays := [], attempts := 1 } := by
  conv_lhs => unfold fetchWithRetryGo
  split <;> rfl

theorem fetchWithRetryGo_succ_eq (outcomes : Nat → AttemptOutcome)
    (jitter : Nat → Nat) (attempt r : Nat)
    (h : immediateReturn (outcomes attempt) = false) :
    fetchWithRetryGo outcomes jitter attempt (r + 1) =
      { result := (fetchWithRetryGo outcomes jitter (attempt + 1) r).result
        delays :=
          retryDelay jitter attempt :: (fetchWithRetryGo outcomes jitter (attempt + 1) r).delays
        attempts := (fetchWithRetryGo outcomes jitter (attempt + 1) r).attempts + 1 } := by
  conv_lhs => unfold fetchWithRetryGo
  simp [h]

theorem fetchWithRetryGo_attempts_pos (outcomes : Nat → AttemptOutcome)
    (jitter : Nat → Nat) (remaining attempt : Nat) :
    1 ≤ (fetchWithRetryGo outcomes jitter attempt remaining).attempts := by
  by_cases h : immediateReturn (outcomes attempt) = true
  · rw [fetchWithRetryGo_immediate_eq outcomes jitter attempt remaining h]
  · cases remaining with
    | zero => rw [fetchWithRetryGo_zero_eq]
    | succ r =>
      rw [fetchWithRetryGo_succ_eq outcomes jitter attempt r (by simpa using h)]
      simp

theorem fetchWithRetryGo_attempts_le (outcomes : Nat → AttemptOutcome) (jitter : Nat → Nat) :
    ∀ remaining attempt,
      (fetchWithRetryGo outcomes jitter attempt remaining).attempts ≤ remaining + 1 := by
  intro remaining
  induction remaining with
  | zero =>
    intro attempt
    rw [fetchWithRetryGo_zero_eq]
  | succ r ih =>
    intro attempt
    by_cases h : immediateReturn (outcomes attempt) = true
    · rw [fetchWithRetryGo_immediate_eq outcomes jitter attempt (r + 1) h]
      dsimp only
      omega
    · rw [fetchWithRetryGo_succ_eq outcomes jitter attempt r (by simpa using h)]
      have := ih (attempt + 1)
      simpa using this

theorem fetchWithRetryGo_delays_eq (outcomes : Nat → AttemptOutcome) (jitter : Nat → Nat) :
    ∀ remaining attempt,
      (fetchWithRetryGo outcomes jitter attempt remaining).delays =
        (List.range ((fetchWithRetryGo outcomes jitter attempt remaining).attempts - 1)).map
          (fun i => retryDelay jitter (attempt + i)) := by
  intro remaining
  induction remaining with
  | zero =>
    intro attempt
    rw [fetchWithRetryGo_zero_eq]
    simp
  | succ r ih =>
    intro attempt
    by_cases h : immediateReturn (outcomes attempt) = true
    · rw [fetchWithRetryGo_immediate_eq outcomes jitter attempt (r + 1) h]
      simp
    · rw [fetchWithRetryGo_succ_eq outcomes jitter attempt r (by simpa using h)]
      dsimp only
      have hpos := fetchWithRetryGo_attempts_pos outcomes jitter r (attempt + 1)
      obtain ⟨m, hm⟩ : ∃ m, (fetchWithRetryGo outcomes jitter (attempt + 1) r).attempts =
          m + 1 := ⟨(fetchWithRetryGo outcomes jitter (attempt + 1) r).attempts - 1, by omega⟩
      have hIH := ih (attempt + 1)
      rw [hm] at hIH
      simp only [Nat.add_sub_cancel] at hIH
      rw [hm, Nat.add_sub_cancel, List.range_succ_eq_map, List.map_cons, List.map_map]
      refine List.cons_eq_cons.mpr ⟨by norm_num, ?_⟩
      rw [hIH]
      refine List.map_congr_left ?_
      intro i _
      simp only [Function.comp_apply]
      congr 1
      omega

theorem fetchWithRetryGo_retries_retryable (outcomes : Nat → AttemptOutcome)
    (jitter : Nat → Nat) :
    ∀ remaining attempt k,
      k + 1 < (fetchWithRetryGo outcomes jitter attempt remaining).attempts →
      retryableOutcome (outcomes (attempt + k)) := by
  intro remaining
  induction remaining with
  | zero =>
    intro attempt k h
    rw [fetchWithRetryGo_zero_eq] at h
    dsimp only at h
    omega
  | succ r ih =>
    intro attempt k h
    by_cases hi : immediateReturn (outcomes attempt) = true
    · rw [fetchWithRetryGo_immediate_eq outcomes jitter attempt (r + 1) hi] at h
      dsimp only at h
      omega
    · rw [fetchWithRetryGo_succ_eq outcomes jitter attempt r (by simpa using hi)] at h
      match k with
      | 0 =>
        simpa using retryable_of_not_immediate (outcomes attempt) (by simpa using hi)
      | j + 1 =>
        have hj : j + 1 < (fetchWithRetryGo outcomes jitter (attempt + 1) r).attempts := by
          simpa using h
        have := ih (attempt + 1) j hj
        have harith : attempt + 1 + j = attempt + (j + 1) := by omega
        rwa [harith] at this

theorem fetchWithRetryGo_exhausted (outcomes : Nat → AttemptOutcome) (jitter : Nat → Nat) :
    ∀ remaining attempt,
      (fetchWithRetryGo outcomes jitter attempt remaining).attempts = remaining + 1 →
      (fetchWithRetryGo outcomes jitter attempt remaining).result =
        outcomeResult (outcomes (attempt + remaining)) := by
  intro remaining
  induction remaining with
  | zero =>
    intro attempt _
    rw [fetchWithRetryGo_zero_eq]
    simp
  | succ r ih =>
    intro attempt h
    by_cases hi : immediateReturn (outcomes attempt) = true
    · rw [fetchWithRetryGo_immediate_eq outcomes jitter attempt (r + 1) hi] at h
      dsimp only at h
      omega
    · rw [fetchWithRetryGo_succ_eq outcomes jitter attempt r (by simpa using hi)] at h ⊢
      have ha : (fetchWithRetryGo outcomes jitter (attempt + 1) r).attempts = r + 1 := by
        simpa using h
      have := ih (attempt + 1) ha
      have harith : attempt + 1 + r = attempt + (r + 1) := by omega
      rw [harith] at this
      simpa using this

theorem fetchWithRetry_immediate (outcomes : Nat → AttemptOutcome) (jitter : Nat → Nat)
    (s : Nat) (h : outcomes 0 = .response s)
    (hs : s ∉ RETRY_CONFIG.retryableStatusCodes) :
    fetchWithRetry outcomes jitter = { result := .ok s, delays := [], attempts := 1 } := by
  have hc : RETRY_CONFIG.retryableStatusCodes.contains s = false := by
    simpa using hs
  have hi : immediateReturn (outcomes 0) = true := by
    rw [h]
    simp only [immediateReturn, hc, Bool.not_false, Bool.or_true]
  rw [fetchWithRetry, fetchWithRetryGo_immediate_eq outcomes jitter 0 _ hi, h]
  rfl

theorem fetchWithRetry_scenario503 (jitter : Nat → Nat) :
    fetchWithRetry scenario503 jitter =
      { result := .ok 200, delays := [retryDelay jitter 0, retryDelay jitter 1],
        attempts := 3 } := by
  rfl

/-- C7: `fetchWithRetry` retries only on allow-listed statuses
{408, 429, 500, 502, 503, 504} or thrown network/timeout errors, makes at
most `maxRetries = 2` additional attempts, sleeps
`min(500 * 2 ^ attempt + jitter, 3000)` ms between attempts (the k-th
recorded delay, counting from 0, is for attempt k), returns any response
with a non-allow-listed status immediately without retrying, surfaces the
last response or error as-is once the budget is exhausted, and turns the
503, 503, 200 schedule into a success on the final (third) attempt. -/
theorem C7_fetchWithRetry_retry_policy (outcomes : Nat → AttemptOutcome)
    (jitter : Nat → Nat) :
    (fetchWithRetry outcomes jitter).attempts ≤ RETRY_CONFIG.maxRetries + 1 ∧
    (∀ k, k + 1 < (fetchWithRetry outcomes jitter).attempts →
      retryableOutcome (outcomes k)) ∧
    (fetchWithRetry outcomes jitter).delays =
      (List.range ((fetchWithRetry outcomes jitter).attempts - 1)).map
        (fun i => min (500 * 2 ^ i + jitter i) 3000) ∧
    (∀ s, outcomes 0 = .response s → s ∉ RETRY_CONFIG.retryableStatusCodes →
      fetchWithRetry outcomes jitter = { result := .ok s, delays := [], attempts := 1 }) ∧
    ((fetchWithRetry outcomes jitter).attempts = RETRY_CONFIG.maxRetries + 1 →
      (fetchWithRetry outcomes jitter).result =
        outcomeResult (outcomes RETRY_CONFIG.maxRetries)) ∧
    fetchWithRetry scenario503 jitter =
      { result := .ok 200, delays := [retryDelay jitter 0, retryDelay jitter 1],
        attempts := 3 } := by
  refine ⟨fetchWithRetryGo_attempts_le outcomes jitter _ 0, ?_, ?_, ?_, ?_,
    fetchWithRetry_scenario503 jitter⟩
  · intro k h
    simpa using fetchWithRetryGo_retries_retryable outcomes jitter _ 0 k h
  · have := fetchWithRetryGo_delays_eq outcomes jitter RETRY_CONFIG.maxRetries 0
    simpa [fetchWithRetry, retryDelay, RETRY_CONFIG] using this
  · intro s hs hmem
    exact fetchWithRetry_immediate outcomes jitter s hs hmem
  · intro h
    simpa using fetchWithRetryGo_exhausted outcomes jitter _ 0 h

/-- Witness for C7 at the concrete 503, 503, 200 schedule with zero jitter. -/
theorem C7_fetchWithRetry_retry_policy_witness :
    retryableOutcome (scenario503 0) ∧
    (fetchWithRetry scenario503 (fun _ => 0)).result =
      outcomeResult (scenario503 RETRY_CONFIG.maxRetries) ∧
    fetchWithRetry scenario503 (fun _ => 0) =
      { result := .ok 200, delays := [500, 1000], attempts := 3 } := by
  have h := C7_fetchWithRetry_retry_policy scenario503 (fun _ => 0)
  refine ⟨h.2.1 0 (by decide), h.2.2.2.2.1 (by decide), ?_⟩
  have h6 := h.2.2.2.2.2
  simpa [retryDelay, RETRY_CONFIG] using h6

/-! ## Topic Matcher (smart recall helpers, src/cli.ts)

JS strings are modelled as `List Char`; `String.prototype.includes` is
substring (infix) containment.  `Char.toLower` models `toLowerCase` on the
ASCII range used by keywords. -/

/-- JS `hay.includes(kw)`: `kw` occurs as a contiguous substring of `hay`. -/
def strIncludes (hay kw : List Char) : Bool := decide (kw <:+: hay)

/-- The stop-word set `STOP_WORDS` of src/cli.ts. -/
def STOP_WORDS : List (List Char) :=
  ["the", "a", "an", "is", "it", "in", "on", "to", "for", "and", "or", "but",
   "with", "that", "this", "from", "at", "by", "do", "does", "did", "can",
   "could", "would", "should", "will", "have", "has", "had", "been", "being",
   "be", "am", "are", "was", "were", "let", "me", "my", "you", "your", "we",
   "our", "they", "their", "he", "she", "his", "her", "its", "what", "which",
   "who", "how", "when", "where", "why", "if", "then", "else", "not", "no",
   "yes", "ok", "okay", "just", "also", "now", "so", "very", "too", "here",
   "there", "all", "any", "some", "every", "each", "these", "those", "of",
   "about", "want", "need", "like", "make", "get", "go", "know", "think",
   "see", "look", "use", "try", "tell", "give", "take", "come", "put", "say",
   "thing", "way", "sure", "right", "well", "really", "going", "still"].map
    String.data

/-- The separator class of `extractKeywords`' split regex
(whitespace plus listed punctuation; `Char.ofNat 39` is the apostrophe). -/
def sepChars : List Char :=
  ".,;:!?()[]\x7b\x7d\"/\\@#$%^&*+=<>~`".data ++ [Char.ofNat 39]

def isSepChar (c : Char) : Bool := c.isWhitespace || sepChars.contains c

/-- JS `String.prototype.trim` on a char list. -/
def trimChars (l : List Char) : List Char :=
  ((l.dropWhile Char.isWhitespace).reverse.dropWhile Char.isWhitespace).reverse

def dedupFirstAux : List (List Char) → List (List Char) → List (List Char)
  | _, [] => []
  | seen, a :: rest =>
    if seen.contains a then dedupFirstAux seen rest
    else a :: dedupFirstAux (a :: seen) rest

/-- `[...new Set(keywords)]`: deduplicate keeping first occurrences. -/
def dedupFirst (l : List (List Char)) : List (List Char) := dedupFirstAux [] l

/-- `extractKeywords`: lowercase, split on separators, keep trimmed tokens of
length at least 3 that are neither stop words nor all-digit, deduplicate. -/
def extractKeywords (message : List Char) : List (List Char) :=
  let words := List.splitOnP isSepChar (message.map Char.toLower)
  let keywords := words.filterMap (fun word =>
    let w := trimChars word
    if 3 ≤ w.length && !(STOP_WORDS.contains w) && !(w.all Char.isDigit) then some w
    else none)
  dedupFirst keywords

example : extractKeywords "Fix the stripe webhook now".data =
    [['f', 'i', 'x'], "stripe".data, "webhook".data] := by decide

structure TopicIndexEntry where
  subject : List Char
  keywords : List (List Char)
  count : Nat
  avg_importance : ℚ
deriving DecidableEq

structure TopicMatch where
  subject : List Char
  score : ℚ
deriving DecidableEq

/-- One extracted keyword hits a topic if it equals one of the topic's
keywords or either string contains the other. -/
def kwMatchesTopic (topicKws : List (List Char)) (kw : List Char) : Bool :=
  topicKws.any (fun topicKw =>
    kw == topicKw || strIncludes topicKw kw || strIncludes kw topicKw)

/-- The inner loop of `matchTopics`: each extracted keyword counts at most
once per topic (the JS loop breaks after the first hit). -/
def matchCount (keywords topicKws : List (List Char)) : Nat :=
  (keywords.filter (kwMatchesTopic topicKws)).length

/-- Descending-score order, as induced by the comparator
`(a, b) => b.score - a.score`. -/
def scoreGe (a b : TopicMatch) : Prop := b.score ≤ a.score

instance : DecidableRel scoreGe := fun a b => inferInstanceAs (Decidable (b.score ≤ a.score))

instance : IsTotal TopicMatch scoreGe := ⟨fun a b => le_total b.score a.score⟩

instance : IsTrans TopicMatch scoreGe := ⟨fun _ _ _ hab hbc => le_trans hbc hab⟩

/-- The pre-sort match list of `matchTopics`: topics with at least one
keyword hit, scored `matchCount * avg_importance`. -/
def matchedTopics (keywords : List (List Char)) (topicIndex : List TopicIndexEntry) :
    List TopicMatch :=
  topicIndex.filterMap (fun topic =>
    if 1 ≤ matchCount keywords topic.keywords then
      some { subject := topic.subject
             score := (matchCount keywords topic.keywords : ℚ) * topic.avg_importance }
    else none)

/-- `matchTopics`: score the topic index against the extracted keywords and
sort the hits by score descending. -/
def matchTopics (keywords : List (List Char)) (topicIndex : List TopicIndexEntry) :
    List TopicMatch :=
  List.insertionSort scoreGe (matchedTopics keywords topicIndex)

def kwStripe : List Char := "stripe".data

def kwWebhook : List Char := "webhook".data

def kwPayments : List Char := "payments".data

example : matchCount [kwStripe, kwWebhook] [kwStripe, kwPayments] = 1 := by decide

/-- C8: `matchTopics` gives each topic the score (number of extracted
keywords hitting any of the topic's keywords by equality or containment in
either direction, each extracted keyword counted at most once per topic)
times the topic's `avg_importance`, keeps exactly the topics with at least
one hit, and returns them sorted by score descending; on
`["stripe", "webhook"]` against a topic with keywords
`["stripe", "payments"]` there is exactly one hit and the score is
`1 * avg_importance`. -/
theorem C8_matchTopics_scoring (keywords : List (List Char))
    (topicIndex : List TopicIndexEntry) (subj : List Char) (c : Nat) (q : ℚ) :
    List.Sorted scoreGe (matchTopics keywords topicIndex) ∧
    (matchTopics keywords topicIndex).Perm (matchedTopics keywords topicIndex) ∧
    (∀ m ∈ matchTopics keywords topicIndex, ∃ t ∈ topicIndex,
      m.subject = t.subject ∧
      m.score = (matchCount keywords t.keywords : ℚ) * t.avg_importance ∧
      1 ≤ matchCount keywords t.keywords) ∧
    matchCount [kwStripe, kwWebhook] [kwStripe, kwPayments] = 1 ∧
    matchTopics [kwStripe, kwWebhook]
      [{ subject := subj, keywords := [kwStripe, kwPayments], count := c,
         avg_importance := q }] =
      [{ subject := subj, score := q }] := by
  refine ⟨List.sorted_insertionSort scoreGe _, List.perm_insertionSort scoreGe _, ?_, by decide, ?_⟩
  · intro m hm
    have hm' : m ∈ matchedTopics keywords topicIndex :=
      (List.perm_insertionSort scoreGe _).subset hm
    obtain ⟨t, ht, hft⟩ := List.mem_filterMap.mp hm'
    refine ⟨t, ht, ?_⟩
    by_cases hc : 1 ≤ matchCount keywords t.keywords
    · rw [if_pos hc] at hft
      obtain rfl := Option.some.inj hft
      exact ⟨rfl, rfl, hc⟩
    · rw [if_neg hc] at hft
      exact absurd hft (by simp)
  · have hmc : matchCount [kwStripe, kwWebhook] [kwStripe, kwPayments] = 1 := by decide
    simp [matchTopics, matchedTopics, hmc, List.insertionSort, List.orderedInsert]

/-- A concrete one-entry topic index used by witnesses. -/
def billingTopic : TopicIndexEntry :=
  { subject := "billing".data, keywords := [kwStripe], count := 1,
    avg_importance := (3 : ℚ) }

def billingMatch : TopicMatch := { subject := "billing".data, score := (3 : ℚ) }

/-- Witness for C8 at a concrete single-topic index. -/
theorem C8_matchTopics_scoring_witness :
    billingMatch ∈ matchTopics [kwStripe, kwWebhook] [billingTopic] ∧
    ∃ t ∈ [billingTopic],
      billingMatch.subject = t.subject ∧
      billingMatch.score = (matchCount [kwStripe, kwWebhook] t.keywords : ℚ) * t.avg_importance ∧
      1 ≤ matchCount [kwStripe, kwWebhook] t.keywords := by
  have hmc : matchCount [kwStripe, kwWebhook] [kwStripe] = 1 := by decide
  have hmem : billingMatch ∈ matchTopics [kwStripe, kwWebhook] [billingTopic] := by
    simp [matchTopics, matchedTopics, billingTopic, billingMatch, hmc,
      List.insertionSort, List.orderedInsert]
  have h := C8_matchTopics_scoring [kwStripe, kwWebhook] [billingTopic] "billing".data 1 3
  exact ⟨hmem, h.2.2.1 billingMatch hmem⟩

/-! ## Flag store and hook state (src/cli.ts)

A flag file read is `absent` (the file does not exist), `unparsable`
(`existsSync` is true but `JSON.parse(readFileSync(...))` throws), or
`parsed`.  Hook functions take the relevant file states plus an
environment of externally-determined values (clock, network outcomes,
transcript reader results) and return a record of their effects. -/

inductive FileState (α : Type) where
  | absent
  | unparsable
  | parsed (value : α)
deriving DecidableEq

/-- `existsSync`: true for any file on disk, parsable or not. -/
def FileState.isPresent {α : Type} : FileState α → Bool
  | .absent => false
  | _ => true

/-- Contents of a CompactionFlag file `compacted-<session>`. -/
structure CompactionFlag where
  timestamp : Nat
  key_prefix : List Char
  session_id : List Char
deriving DecidableEq

/-- Contents of a SessionMarker file `session-<session>`.  Fields the
code reads through `|| default` are optional. -/
structure MarkerData where
  timestamp : Nat
  session_id : List Char
  project_id : Option (List Char)
  last_smart_recall : Option Nat
  last_smart_topics : Option (List (List Char))
deriving DecidableEq

/-- JS `s || dflt` where `s` is a possibly-missing string: the empty
string is falsy. -/
def jsOrStr (o : Option (List Char)) (dflt : List Char) : List Char :=
  match o with
  | some s => if s.isEmpty then dflt else s
  | none => dflt

/-- `isNewSession` of runHookContextReload: no marker, an unparsable
marker, or a marker older than the 4-hour expiry. -/
def isNewSessionOf (marker : FileState MarkerData) (now : Nat) : Bool :=
  match marker with
  | .absent => true
  | .unparsable => true
  | .parsed m => decide (SESSION_EXPIRY_SECONDS < now - m.timestamp)

inductive SessionClass where
  | postCompaction
  | newSession
  | ongoing
deriving DecidableEq

/-- The session classifier of the prompt-submit hook: post-compaction if a
CompactionFlag file exists (parsable or not), else new-session by marker
absence/expiry, else ongoing. -/
def classifySession (flag : FileState CompactionFlag) (marker : FileState MarkerData)
    (now : Nat) : SessionClass :=
  if flag.isPresent then .postCompaction
  else if isNewSessionOf marker now then .newSession
  else .ongoing

/-! ## Smart recall (trySmartRecall, src/cli.ts) -/

structure RecallMemory where
  content : List Char
  subject : List Char
  importance : ℚ
  memory_type : Option (List Char)
deriving DecidableEq

structure RecallData where
  ok : Bool
  memories : Option (List RecallMemory)
deriving DecidableEq

/-- Contents of a topic cache file `topics-<project>.json`. -/
structure TopicCache where
  timestamp : Nat
  topics : List TopicIndexEntry
deriving DecidableEq

structure SmartEnv where
  now : Nat
  transcript_path : List Char
  lastUserMessage : List Char
  detectedProjectId : List Char
  topicCache : FileState TopicCache
  hasApiKey : Bool
  recallOutcome : Option RecallData
deriving DecidableEq

structure SmartResult where
  recallCalled : Bool
  output : Option (List Char)
  markerWritten : Option MarkerData
deriving DecidableEq

/-- The silent-abort result of trySmartRecall: no remote call, no output,
no marker update. -/
def smartNone : SmartResult :=
  { recallCalled := false, output := none, markerWritten := none }

/-- One line of the smart-recall injection:
`- [memory_type || 'context'] subject: content`. -/
def recallLine (m : RecallMemory) : List Char :=
  ("- [".data) ++ jsOrStr m.memory_type ("context".data) ++ ("] ".data) ++
    m.subject ++ (": ".data) ++ m.content

/-- Cap the smart-recall injection to `SMART_RECALL_MAX_CHARS`. -/
def capInjection (injection : List Char) : List Char :=
  if SMART_RECALL_MAX_CHARS < injection.length then
    injection.take (SMART_RECALL_MAX_CHARS - 40) ++ ("\n[...use recall_memories for more]".data)
  else injection

/-- The `additionalContext` text printed by a successful smart recall. -/
def smartOutput (injectedTopics : List (List Char)) (injection : List Char) : List Char :=
  ("CogmemAi — Relevant memories detected for: ".data) ++
    List.intercalate (", ".data) (injectedTopics.take 3) ++ ("\n\n".data) ++ injection ++
    ("\n\nThese memories were automatically surfaced based on the current topic. Use recall_memories for deeper searches.".data)

/-- The result when the recall call was attempted but produced nothing to
inject (network throw, non-2xx, or an empty memory list): the failure is
swallowed with no output and no marker update. -/
def smartSwallowed : SmartResult :=
  { recallCalled := true, output := none, markerWritten := none }

/-- The successful tail of `trySmartRecall`: build the capped injection
from the returned memories, record the top five matched subjects, emit
the output and rewrite the marker, spreading the old marker so only
`last_smart_recall`, `last_smart_topics` and `project_id` change. -/
def smartSuccess (m : MarkerData) (env : SmartEnv) (ms : List TopicMatch)
    (mems : List RecallMemory) : SmartResult :=
  let injection := capInjection (List.intercalate ['\n'] (mems.map recallLine))
  let injectedTopics := (ms.take 5).map TopicMatch.subject
  { recallCalled := true
    output := some (smartOutput injectedTopics injection)
    markerWritten := some
      { m with
        last_smart_recall := some env.now
        last_smart_topics := some injectedTopics
        project_id := some (jsOrStr m.project_id env.detectedProjectId) } }

/-- `trySmartRecall`: gate chain (readable marker, cooldown, transcript
present, message length, keyword count, fresh topic cache, match score,
novelty, API key), then the remote recall call and, on success with
memories, the injection output and the marker rewrite that preserves the
original timestamp. -/
def trySmartRecall (markerFile : FileState MarkerData) (env : SmartEnv) : SmartResult :=
  match markerFile with
  | .absent => smartNone
  | .unparsable => smartNone
  | .parsed m =>
    if env.now - (m.last_smart_recall.getD 0) < SMART_RECALL_COOLDOWN then smartNone
    else if env.transcript_path.isEmpty then smartNone
    else if env.lastUserMessage.length < SMART_RECALL_MIN_MSG_LENGTH then smartNone
    else if (extractKeywords env.lastUserMessage).length < 2 then smartNone
    else
      match env.topicCache with
      | .absent => smartNone
      | .unparsable => smartNone
      | .parsed cache =>
        if 86400 < env.now - cache.timestamp then smartNone
        else
          match matchTopics (extractKeywords env.lastUserMessage) cache.topics with
          | [] => smartNone
          | top :: _ =>
            if top.score < (SMART_RECALL_MIN_MATCH_SCORE : ℚ) then smartNone
            else if ((matchTopics (extractKeywords env.lastUserMessage) cache.topics).filter
                (fun mm => !((m.last_smart_topics.getD []).contains mm.subject))).isEmpty then
              smartNone
            else if !env.hasApiKey then smartNone
            else
              match env.recallOutcome with
              | none => smartSwallowed
              | some res =>
                if !res.ok then smartSwallowed
                else if (res.memories.getD []).isEmpty then smartSwallowed
                else
                  smartSuccess m env
                    (matchTopics (extractKeywords env.lastUserMessage) cache.topics)
                    (res.memories.getD [])

/-! ## Prompt-submit hook (runHookContextReload, src/cli.ts) -/

structure ContextMemory where
  subject : List Char
  content : List Char
  importance : ℚ
deriving DecidableEq

/-- The parsed body of a `GET context` response. -/
structure ContextData where
  ok : Bool
  formatted_context : Option (List Char)
  total_count : Option Nat
  project_memories : Option (List ContextMemory)
  global_memories : Option (List ContextMemory)
deriving DecidableEq

/-- One fallback context line: `- [subject] content`. -/
def memLine (m : ContextMemory) : List Char :=
  ("- [".data) ++ m.subject ++ ("] ".data) ++ m.content

/-- Build the context string: prefer a non-empty `formatted_context`,
otherwise join the project and global memory lines with newlines. -/
def buildContext (d : ContextData) : List Char :=
  if (d.formatted_context.getD []).isEmpty then
    List.intercalate ['\n']
      (((d.project_memories.getD []).map memLine) ++ ((d.global_memories.getD []).map memLine))
  else d.formatted_context.getD []

/-- The `limit` query parameter of the full context fetch: 15 after a
compaction, 20 for a new session. -/
def contextLimit (isPostCompaction : Bool) : Nat :=
  if isPostCompaction then 15 else 20

/-- The character budget for injected context: 4000 after a compaction,
6000 for a new session. -/
def maxCharsFor (isPostCompaction : Bool) : Nat :=
  if isPostCompaction then 4000 else 6000

/-- The truncation marker appended when the context exceeds its budget. -/
def truncMarker : List Char :=
  "\n\n[Condensed — use recall_memories to search for specific past context]".data

example : truncMarker.length = 71 := by decide

/-- Cap the context to its character budget, slicing to budget minus 80
characters and appending the truncation marker when it is exceeded. -/
def capContext (isPostCompaction : Bool) (context : List Char) : List Char :=
  if maxCharsFor isPostCompaction < context.length then
    context.take (maxCharsFor isPostCompaction - 80) ++ truncMarker
  else context

def reloadLabel (isPostCompaction : Bool) : List Char :=
  if isPostCompaction then ("CogmemAi — Context recovered after compaction.".data)
  else ("CogmemAi — Project context loaded from previous sessions.".data)

def reloadInstruction : List Char :=
  "\n\nIMPORTANT: Your memories are loaded above. Use recall_memories to search for specific past context. Save new learnings with save_memory.".data

/-- The `additionalContext` text printed by a full context injection. -/
def reloadOutput (isPostCompaction : Bool) (context : List Char) : List Char :=
  reloadLabel isPostCompaction ++ (" Your memories have been reloaded:\n\n".data) ++
    context ++ reloadInstruction

structure ReloadEnv where
  now : Nat
  session_id : List Char
  hasApiKey : Bool
  projectId : List Char
  fetchOutcome : Option ContextData
  smart : SmartEnv
deriving DecidableEq

structure ReloadResult where
  flagFinal : FileState CompactionFlag
  markerFinal : FileState MarkerData
  fetchLimit : Option Nat
  injected : Option (List Char)
  output : Option (List Char)
  smartAttempted : Bool
  errorLogged : Bool
deriving DecidableEq

/-- The SessionMarker written after a full context fetch: fresh timestamp,
`last_smart_recall` 0 and empty `last_smart_topics`. -/
def freshMarker (env : ReloadEnv) : MarkerData :=
  { timestamp := env.now
    session_id := env.session_id
    project_id := some env.projectId
    last_smart_recall := some 0
    last_smart_topics := some [] }

/-- Whether the compaction-flag freshness validation fails: the flag is
unparsable, or older than `COMPACTION_FLAG_MAX_AGE`.  (The flag is
deleted in that case.) -/
def flagStale (flag : FileState CompactionFlag) (now : Nat) : Bool :=
  match flag with
  | .absent => false
  | .unparsable => true
  | .parsed f => decide (COMPACTION_FLAG_MAX_AGE < now - f.timestamp)

/-- `runHookContextReload`: classify the session, fast-exit to smart recall
for ongoing sessions, short-circuit without an API key, validate the
compaction flag's freshness (delete it and return if stale or corrupt,
since `isNewSession` is never set when the flag exists), then fetch the
full context, consume the flag, rewrite the marker and emit the capped
context. -/
def runHookContextReload (flag : FileState CompactionFlag) (marker : FileState MarkerData)
    (env : ReloadEnv) : ReloadResult :=
  let isPostCompaction := flag.isPresent
  let isNewSession := if isPostCompaction then false else isNewSessionOf marker env.now
  if !isPostCompaction && !isNewSession then
    let sr := trySmartRecall marker env.smart
    { flagFinal := flag
      markerFinal := match sr.markerWritten with | some m' => .parsed m' | none => marker
      fetchLimit := none
      injected := none
      output := sr.output
      smartAttempted := true
      errorLogged := false }
  else if !env.hasApiKey then
    { flagFinal := if isPostCompaction then .absent else flag
      markerFinal := marker
      fetchLimit := none
      injected := none
      output := none
      smartAttempted := false
      errorLogged := false }
  else if isPostCompaction && flagStale flag env.now && !isNewSession then
    { flagFinal := .absent
      markerFinal := marker
      fetchLimit := none
      injected := none
      output := none
      smartAttempted := false
      errorLogged := false }
  else
    match env.fetchOutcome with
    | none =>
      { flagFinal := if isPostCompaction && flagStale flag env.now then .absent else flag
        markerFinal := marker
        fetchLimit := some (contextLimit isPostCompaction)
        injected := none
        output := none
        smartAttempted := false
        errorLogged := true }
    | some d =>
      let flagFinal : FileState CompactionFlag := if isPostCompaction then .absent else flag
      let markerFinal : FileState MarkerData := .parsed (freshMarker env)
      if !d.ok then
        { flagFinal := flagFinal, markerFinal := markerFinal
          fetchLimit := some (contextLimit isPostCompaction)
          injected := none, output := none, smartAttempted := false, errorLogged := false }
      else if (buildContext d).isEmpty || d.total_count == some 0 then
        { flagFinal := flagFinal, markerFinal := markerFinal
          fetchLimit := some (contextLimit isPostCompaction)
          injected := none, output := none, smartAttempted := false, errorLogged := false }
      else
        let context := capContext isPostCompaction (buildContext d)
        { flagFinal := flagFinal, markerFinal := markerFinal
          fetchLimit := some (contextLimit isPostCompaction)
          injected := some context
          output := some (reloadOutput isPostCompaction context)
          smartAttempted := false
          errorLogged := false }

/-- C5: when a fresh, parsable CompactionFlag and a fresh SessionMarker both
exist, an invocation with a resolvable API key whose context fetch returns
a response classifies post-compaction, fetches with the post-compaction
limit 15, consumes the flag, and rewrites the marker with a fresh
timestamp, `last_smart_recall = 0` and empty `last_smart_topics`. -/
theorem C5_postCompaction_priority (f : CompactionFlag) (m : MarkerData) (env : ReloadEnv)
    (d : ContextData)
    (hfresh : env.now - f.timestamp ≤ COMPACTION_FLAG_MAX_AGE)
    (_hmfresh : env.now - m.timestamp ≤ SESSION_EXPIRY_SECONDS)
    (hkey : env.hasApiKey = true)
    (hfetch : env.fetchOutcome = some d) :
    classifySession (.parsed f) (.parsed m) env.now = .postCompaction ∧
    (runHookContextReload (.parsed f) (.parsed m) env).fetchLimit = some 15 ∧
    (runHookContextReload (.parsed f) (.parsed m) env).flagFinal = .absent ∧
    (runHookContextReload (.parsed f) (.parsed m) env).markerFinal =
      .parsed (freshMarker env) ∧
    freshMarker env =
      { timestamp := env.now, session_id := env.session_id,
        project_id := some env.projectId, last_smart_recall := some 0,
        last_smart_topics := some [] } := by
  have hstale : flagStale (.parsed f) env.now = false := by
    simp only [flagStale, decide_eq_false_iff_not, not_lt]
    exact hfresh
  refine ⟨by simp [classifySession, FileState.isPresent], ?_, ?_, ?_, rfl⟩ <;>
    · unfold runHookContextReload
      simp [FileState.isPresent, hkey, hstale, hfetch]
      split <;> try rfl
      split <;> rfl

/-- Witness for C5 at a concrete fresh flag, fresh marker and successful
fetch. -/
theorem C5_postCompaction_priority_witness :
    (runHookContextReload
        (.parsed { timestamp := 900, key_prefix := "cm_12345".data, session_id := "s1".data })
        (.parsed { timestamp := 950, session_id := "s1".data, project_id := none,
                   last_smart_recall := none, last_smart_topics := none })
        { now := 1000, session_id := "s1".data, hasApiKey := true,
          projectId := "proj".data,
          fetchOutcome := some
            { ok := true, formatted_context := some ("x".data), total_count := some 1,
              project_memories := none, global_memories := none },
          smart := { now := 1000, transcript_path := [], lastUserMessage := [],
                     detectedProjectId := [], topicCache := .absent, hasApiKey := true,
                     recallOutcome := none } }).fetchLimit = some 15 := by
  have h := C5_postCompaction_priority
    { timestamp := 900, key_prefix := "cm_12345".data, session_id := "s1".data }
    { timestamp := 950, session_id := "s1".data, project_id := none,
      last_smart_recall := none, last_smart_topics := none }
    { now := 1000, session_id := "s1".data, hasApiKey := true,
      projectId := "proj".data,
      fetchOutcome := some
        { ok := true, formatted_context := some ("x".data), total_count := some 1,
          project_memories := none, global_memories := none },
      smart := { now := 1000, transcript_path := [], lastUserMessage := [],
                 detectedProjectId := [], topicCache := .absent, hasApiKey := true,
                 recallOutcome := none } }
    { ok := true, formatted_context := some ("x".data), total_count := some 1,
      project_memories := none, global_memories := none }
    (by decide) (by decide) rfl rfl
  exact h.2.1

/-- Shared concrete fixtures for witnesses and counterexamples. -/
def fW : CompactionFlag :=
  { timestamp := 900, key_prefix := "cm_12345".data, session_id := "s1".data }

def mW : MarkerData :=
  { timestamp := 950, session_id := "s1".data, project_id := none,
    last_smart_recall := none, last_smart_topics := none }

def dW : ContextData :=
  { ok := true, formatted_context := some ("x".data), total_count := some 1,
    project_memories := none, global_memories := none }

def smartW : SmartEnv :=
  { now := 1000, transcript_path := [], lastUserMessage := [],
    detectedProjectId := [], topicCache := .absent, hasApiKey := true,
    recallOutcome := none }

def envW : ReloadEnv :=
  { now := 1000, session_id := "s1".data, hasApiKey := true, projectId := "proj".data,
    fetchOutcome := some dW, smart := smartW }

theorem capContext_length_le (pc : Bool) (ctx : List Char) :
    (capContext pc ctx).length ≤ maxCharsFor pc := by
  by_cases h : maxCharsFor pc < ctx.length
  · rw [capContext, if_pos h, List.length_append, List.length_take]
    have hm : truncMarker.length = 71 := by decide
    have h80 : 80 ≤ maxCharsFor pc := by cases pc <;> decide
    omega
  · rw [capContext, if_neg h]
    omega

/-- C6: a full context injection requests 15 memories post-compaction and
20 new-session, and the injected context is capped to the 4000/6000
character budget, with the truncation marker appended when the fetched
context exceeds it, so the resulting context never exceeds the budget. -/
theorem C6_full_injection_budget (pc : Bool) (ctx : List Char)
    (flag : FileState CompactionFlag) (marker : FileState MarkerData) (env : ReloadEnv) :
    contextLimit true = 15 ∧ contextLimit false = 20 ∧
    maxCharsFor true = 4000 ∧ maxCharsFor false = 6000 ∧
    (capContext pc ctx).length ≤ maxCharsFor pc ∧
    (maxCharsFor pc < ctx.length →
      capContext pc ctx = ctx.take (maxCharsFor pc - 80) ++ truncMarker) ∧
    (∀ n, (runHookContextReload flag marker env).fetchLimit = some n →
      n = contextLimit flag.isPresent) ∧
    (∀ c, (runHookContextReload flag marker env).injected = some c →
      c.length ≤ maxCharsFor flag.isPresent) := by
  refine ⟨rfl, rfl, rfl, rfl, capContext_length_le pc ctx, ?_, ?_, ?_⟩
  · intro h
    rw [capContext, if_pos h]
  · intro n hn
    unfold runHookContextReload at hn
    repeat' split at hn
    all_goals try simp_all
    all_goals repeat' split at hn
    all_goals simp_all
  · intro c hc
    unfold runHookContextReload at hc
    repeat' split at hc
    all_goals try simp_all
    all_goals repeat' split at hc
    all_goals try simp_all
    all_goals subst hc
    all_goals exact capContext_length_le _ _

/-- Witness for C6: a 4001-character post-compaction context is truncated
to the budget, and the concrete fresh-flag run fetches with limit 15. -/
theorem C6_full_injection_budget_witness :
    (capContext true (List.replicate 4001 'a')).length ≤ maxCharsFor true ∧
    capContext true (List.replicate 4001 'a') =
      (List.replicate 4001 'a').take 3920 ++ truncMarker ∧
    (15 : Nat) = contextLimit (FileState.isPresent (.parsed fW)) := by
  have h := C6_full_injection_budget true (List.replicate 4001 'a')
    (.parsed fW) (.parsed mW) envW
  refine ⟨h.2.2.2.2.1, ?_, ?_⟩
  · have hlt : maxCharsFor true < (List.replicate 4001 'a').length := by
      rw [List.length_replicate]
      decide
    have h2 := h.2.2.2.2.2.1 hlt
    have h80 : maxCharsFor true - 80 = 3920 := by decide
    rw [h80] at h2
    exact h2
  · exact h.2.2.2.2.2.2.1 15 (by decide)

/-- C1 (counterexample): with an unparsable CompactionFlag, an API key, and
either a fresh SessionMarker (ongoing session) or no marker at all, the
hook deletes the flag but performs no context fetch, no smart recall and
no output on that invocation — contradicting the claim that
classification falls through to the new/ongoing rules (full fetch for a
session without a fresh marker, Topic Matcher for an ongoing one). -/
theorem C1_stale_flag_counterexample :
    envW.hasApiKey = true ∧
    isNewSessionOf (.parsed mW) envW.now = false ∧
    (runHookContextReload .unparsable (.parsed mW) envW).flagFinal = .absent ∧
    (runHookContextReload .unparsable (.parsed mW) envW).fetchLimit = none ∧
    (runHookContextReload .unparsable (.parsed mW) envW).smartAttempted = false ∧
    (runHookContextReload .unparsable (.parsed mW) envW).output = none ∧
    (runHookContextReload .unparsable .absent envW).flagFinal = .absent ∧
    (runHookContextReload .unparsable .absent envW).fetchLimit = none ∧
    (runHookContextReload .unparsable .absent envW).output = none := by decide

set_option maxRecDepth 4096 in
/-- C1 (amended): when a CompactionFlag exists but is unparsable or older
than one hour, the invocation deletes the flag and returns without
reprocessing the compaction — no context fetch, no smart recall, no
output, marker untouched; new/ongoing classification takes effect only on
a later invocation, once the flag is gone. -/
theorem C1_stale_flag_amended (flag : FileState CompactionFlag)
    (marker : FileState MarkerData) (env : ReloadEnv)
    (hpc : flag.isPresent = true) (hstale : flagStale flag env.now = true) :
    (runHookContextReload flag marker env).flagFinal = .absent ∧
    (runHookContextReload flag marker env).fetchLimit = none ∧
    (runHookContextReload flag marker env).smartAttempted = false ∧
    (runHookContextReload flag marker env).output = none ∧
    (runHookContextReload flag marker env).markerFinal = marker := by
  unfold runHookContextReload
  by_cases hk : env.hasApiKey <;> simp [hpc, hstale, hk]

/-- Witness for the amended C1 at the concrete unparsable flag. -/
theorem C1_stale_flag_amended_witness :
    (runHookContextReload .unparsable (.parsed mW) envW).fetchLimit = none ∧
    (runHookContextReload .unparsable (.parsed mW) envW).markerFinal = .parsed mW := by
  have h := C1_stale_flag_amended .unparsable (.parsed mW) envW rfl rfl
  exact ⟨h.2.1, h.2.2.2.2⟩

/-- C3: if the set of topic subjects matched on the current invocation
equals the set recorded in the marker's `last_smart_topics`, smart recall
aborts silently — no remote recall call, no output, no marker update —
even when the 180-second cooldown has elapsed. -/
theorem C3_smart_recall_novelty (markerFile : FileState MarkerData) (env : SmartEnv)
    (m : MarkerData) (cache : TopicCache)
    (hm : markerFile = .parsed m)
    (hcache : env.topicCache = .parsed cache)
    (_hcool : SMART_RECALL_COOLDOWN ≤ env.now - m.last_smart_recall.getD 0)
    (hsame : ∀ s, (∃ mm ∈ matchTopics (extractKeywords env.lastUserMessage) cache.topics,
        mm.subject = s) ↔ s ∈ m.last_smart_topics.getD []) :
    trySmartRecall markerFile env = smartNone := by
  subst hm
  have hfilter : ((matchTopics (extractKeywords env.lastUserMessage) cache.topics).filter
      (fun mm => !((m.last_smart_topics.getD []).contains mm.subject))).isEmpty = true := by
    rw [List.isEmpty_iff, List.filter_eq_nil_iff]
    intro mm hmm
    have hmem : mm.subject ∈ m.last_smart_topics.getD [] :=
      (hsame mm.subject).mp ⟨mm, hmm, rfl⟩
    simpa using hmem
  simp only [trySmartRecall]
  rw [hcache]
  simp only [hfilter, eq_self_iff_true, if_true]
  repeat' split
  all_goals rfl

/-- Witness for C3: an empty topic index and an empty recorded topic list
have equal (empty) matched-subject sets, and smart recall aborts. -/
theorem C3_smart_recall_novelty_witness :
    trySmartRecall
      (.parsed { timestamp := 500, session_id := "s2".data, project_id := none,
                 last_smart_recall := some 0, last_smart_topics := some [] })
      { now := 1000, transcript_path := "/t".data, lastUserMessage := [],
        detectedProjectId := "proj".data,
        topicCache := .parsed { timestamp := 900, topics := [] }, hasApiKey := true,
        recallOutcome := none } = smartNone := by
  refine C3_smart_recall_novelty _ _
    { timestamp := 500, session_id := "s2".data, project_id := none,
      last_smart_recall := some 0, last_smart_topics := some [] }
    { timestamp := 900, topics := [] } rfl rfl (by decide) ?_
  intro s
  simp [matchTopics, matchedTopics, List.insertionSort]

/-- C10: whenever smart recall rewrites the SessionMarker, the new marker
keeps the original timestamp and session id — only `last_smart_recall`,
`last_smart_topics` and `project_id` change — so the rewrite never moves
the 4-hour session-expiry clock. -/
theorem C10_smart_recall_frame (markerFile : FileState MarkerData) (env : SmartEnv)
    (m m' : MarkerData) (hm : markerFile = .parsed m)
    (hw : (trySmartRecall markerFile env).markerWritten = some m') :
    m'.timestamp = m.timestamp ∧ m'.session_id = m.session_id ∧
    m'.last_smart_recall = some env.now ∧
    (∀ t, isNewSessionOf (.parsed m') t = isNewSessionOf (.parsed m) t) := by
  subst hm
  unfold trySmartRecall at hw
  repeat' split at hw
  all_goals try exact absurd hw (by simp [smartNone])
  all_goals try exact absurd hw (by simp [smartSwallowed])
  all_goals simp_all [smartSuccess, isNewSessionOf]
  all_goals subst hw
  all_goals exact ⟨rfl, rfl, rfl, fun t => Iff.rfl⟩

/-- Concrete fixtures for a successful smart-recall run. -/
def mC10 : MarkerData :=
  { timestamp := 500, session_id := "s2".data, project_id := none,
    last_smart_recall := some 0, last_smart_topics := some [] }

def msgC10 : List Char := "please investigate the stripe webhook failures today".data

def cacheC10 : TopicCache := { timestamp := 900, topics := [billingTopic] }

def recallMemC10 : RecallMemory :=
  { content := "c".data, subject := "s".data, importance := 5, memory_type := none }

def smartEnvC10 : SmartEnv :=
  { now := 1000, transcript_path := ['/', 't'], lastUserMessage := msgC10,
    detectedProjectId := "proj".data, topicCache := .parsed cacheC10, hasApiKey := true,
    recallOutcome := some { ok := true, memories := some [recallMemC10] } }

/-- The marker that run writes. -/
def m10' : MarkerData :=
  { timestamp := 500, session_id := "s2".data, project_id := some ("proj".data),
    last_smart_recall := some 1000, last_smart_topics := some ["billing".data] }

/-- Witness for C10: the concrete successful run writes `m10'`, whose
timestamp and session id agree with the original marker's. -/
theorem C10_smart_recall_frame_witness :
    (trySmartRecall (.parsed mC10) smartEnvC10).markerWritten = some m10' ∧
    m10'.timestamp = mC10.timestamp ∧ m10'.session_id = mC10.session_id := by
  have hmc : matchCount (extractKeywords msgC10) [kwStripe] = 1 := by decide
  have hmatches : matchTopics (extractKeywords msgC10) [billingTopic] =
      [{ subject := "billing".data, score := (3 : ℚ) }] := by
    simp [matchTopics, matchedTopics, billingTopic, hmc, List.insertionSort]
  have gmsg : (msgC10.length < 30) = False := by decide
  have gkw : ((extractKeywords msgC10).length < 2) = False := by decide
  have gsc : ((3 : ℚ) < ((2 : Nat) : ℚ)) = False := by norm_num
  have gsc2 : ((3 : ℚ) < (2 : ℚ)) = False := by norm_num
  have hw : (trySmartRecall (.parsed mC10) smartEnvC10).markerWritten = some m10' := by
    unfold trySmartRecall
    simp [smartEnvC10, mC10, cacheC10, m10', SMART_RECALL_COOLDOWN,
      SMART_RECALL_MIN_MSG_LENGTH, SMART_RECALL_MIN_MATCH_SCORE, hmatches, gmsg, gkw,
      gsc, gsc2, smartSuccess, jsOrStr]
  have h := C10_smart_recall_frame (.parsed mC10) smartEnvC10 mC10 m10' rfl hw
  exact ⟨hw, h.1, h.2.1⟩

/-! ## Precompact hook (runHookPrecompact, src/cli.ts) -/

/-- A parsed transcript line as the Transcript Reader normalises it:
`getMsg` plus `extractText`, with `none` for a malformed or message-less
line. -/
structure Msg where
  role : List Char
  text : List Char
deriving DecidableEq

structure SessionFiles where
  compactionFlag : FileState CompactionFlag
  marker : FileState MarkerData
deriving DecidableEq

structure PrecompactEnv where
  hasApiKey : Bool
  now : Nat
  session_id : List Char
  apiKeyHead : List Char
  builtSummary : Option (List Char)
  fallbackSummary : List Char
  postOutcome : Option Nat
  sweepRemovesFlag : Bool
  sweepRemovesMarker : Bool
deriving DecidableEq

structure PrecompactResult where
  files : SessionFiles
  postedSummary : Option (List Char)
deriving DecidableEq

/-- Truncate the pre-compaction summary to 2000 characters. -/
def truncateSummary (s : List Char) : List Char :=
  if 2000 < s.length then s.take 1997 ++ ("...".data) else s

/-- `runHookPrecompact`: short-circuit without an API key; otherwise build
the summary (falling back to the minimal one when the transcript is
missing or unreadable), POST it with failure swallowed, sweep stale flag
files, write the fresh per-session CompactionFlag and delete the
SessionMarker.  `builtSummary` is the Transcript Reader's result
(`none` models a missing path or a read failure), `postOutcome` the
session-summary POST (`none` models a thrown network error). -/
def runHookPrecompact (st : SessionFiles) (env : PrecompactEnv) : PrecompactResult :=
  if !env.hasApiKey then { files := st, postedSummary := none }
  else
    let summary0 :=
      match env.builtSummary with
      | some s => if s.isEmpty then env.fallbackSummary else s
      | none => env.fallbackSummary
    let posted :=
      match env.postOutcome with
      | some _ => some (truncateSummary summary0)
      | none => none
    let afterSweep : SessionFiles :=
      { compactionFlag := if env.sweepRemovesFlag then .absent else st.compactionFlag
        marker := if env.sweepRemovesMarker then .absent else st.marker }
    { files :=
        { afterSweep with
          compactionFlag := .parsed
            { timestamp := env.now, key_prefix := env.apiKeyHead,
              session_id := env.session_id }
          marker := .absent }
      postedSummary := posted }

/-- C9: after any precompact invocation with a resolvable API key — whatever
happened to the transcript read or the summary POST — the per-session
CompactionFlag holds the current timestamp and session id, the
SessionMarker is deleted, and the next prompt-submit classifies the
session post-compaction at any later time. -/
theorem C9_precompact_flag (st : SessionFiles) (env : PrecompactEnv)
    (hkey : env.hasApiKey = true) :
    (runHookPrecompact st env).files.compactionFlag =
      .parsed { timestamp := env.now, key_prefix := env.apiKeyHead,
                session_id := env.session_id } ∧
    (runHookPrecompact st env).files.marker = .absent ∧
    (∀ later, classifySession (runHookPrecompact st env).files.compactionFlag
      (runHookPrecompact st env).files.marker later = .postCompaction) := by
  unfold runHookPrecompact
  simp [hkey, classifySession, FileState.isPresent]

/-- Witness for C9 at a concrete environment whose transcript read and
summary POST both failed. -/
theorem C9_precompact_flag_witness :
    (runHookPrecompact
        { compactionFlag := .absent, marker := .parsed mW }
        { hasApiKey := true, now := 2000, session_id := "s1".data,
          apiKeyHead := "cm_12345".data, builtSummary := none,
          fallbackSummary := "Context compacted.".data, postOutcome := none,
          sweepRemovesFlag := false, sweepRemovesMarker := false }).files.marker =
      .absent ∧
    classifySession
      (runHookPrecompact
        { compactionFlag := .absent, marker := .parsed mW }
        { hasApiKey := true, now := 2000, session_id := "s1".data,
          apiKeyHead := "cm_12345".data, builtSummary := none,
          fallbackSummary := "Context compacted.".data, postOutcome := none,
          sweepRemovesFlag := false, sweepRemovesMarker := false }).files.compactionFlag
      (runHookPrecompact
        { compactionFlag := .absent, marker := .parsed mW }
        { hasApiKey := true, now := 2000, session_id := "s1".data,
          apiKeyHead := "cm_12345".data, builtSummary := none,
          fallbackSummary := "Context compacted.".data, postOutcome := none,
          sweepRemovesFlag := false, sweepRemovesMarker := false }).files.marker
      3000 = .postCompaction := by
  have h := C9_precompact_flag
    { compactionFlag := .absent, marker := .parsed mW }
    { hasApiKey := true, now := 2000, session_id := "s1".data,
      apiKeyHead := "cm_12345".data, builtSummary := none,
      fallbackSummary := "Context compacted.".data, postOutcome := none,
      sweepRemovesFlag := false, sweepRemovesMarker := false } rfl
  exact ⟨h.2.1, h.2.2 3000⟩

/-! ## Auto-extract (autoExtractFromSession, src/cli.ts) -/

structure ExtractPayload where
  userMessages : List Char
  assistantResponses : List Char
deriving DecidableEq

/-- Truncate a combined blob to the extract endpoint's 3500-char limit. -/
def truncate3500 (s : List Char) : List Char :=
  if 3500 < s.length then s.take 3497 ++ ("...".data) else s

/-- Truncate an individual turn to 600 characters. -/
def truncateTurn (text : List Char) : List Char :=
  if 600 < text.length then text.take 600 ++ ("...".data) else text

/-- One step of `buildExtractionPayload`'s scan: skip malformed lines and
texts under 15 characters, collect user and assistant turns, and count the
user turns of at least `AUTO_EXTRACT_MIN_MSG_LENGTH` characters. -/
def extractScanStep (acc : List (List Char) × List (List Char) × Nat)
    (line : Option Msg) : List (List Char) × List (List Char) × Nat :=
  match line with
  | none => acc
  | some msg =>
    let text := trimChars msg.text
    if text.length < 15 then acc
    else if msg.role == ("user".data) then
      (acc.1 ++ [truncateTurn text],
       acc.2.1,
       acc.2.2 + (if AUTO_EXTRACT_MIN_MSG_LENGTH ≤ text.length then 1 else 0))
    else if msg.role == ("assistant".data) then
      (acc.1, acc.2.1 ++ [truncateTurn text], acc.2.2)
    else acc

/-- `buildExtractionPayload`: require at least
`AUTO_EXTRACT_MIN_USER_MESSAGES` substantial user turns, then join the
collected turns with `\n---\n` separators, each blob capped at 3500
characters. -/
def buildExtractionPayload (lines : List (Option Msg)) : Option ExtractPayload :=
  let res := lines.foldl extractScanStep ([], [], 0)
  if res.2.2 < AUTO_EXTRACT_MIN_USER_MESSAGES then none
  else some
    { userMessages := truncate3500 (List.intercalate ("\n---\n".data) res.1)
      assistantResponses := truncate3500 (List.intercalate ("\n---\n".data) res.2.1) }

/-- The cooldown gate of `autoExtractFromSession`: blocked only when the
`last-extract` file parses and is younger than two hours; a corrupt or
absent file lets the attempt continue. -/
def extractCooldownBlocked (cooldownFile : FileState Nat) (now : Nat) : Bool :=
  match cooldownFile with
  | .parsed ts => decide (now - ts < AUTO_EXTRACT_COOLDOWN)
  | .unparsable => false
  | .absent => false

structure ExtractEnv where
  now : Nat
  cooldownFile : FileState Nat
  lines : List (Option Msg)
  detectedProjectId : List Char
  extractOutcome : Option Nat
deriving DecidableEq

structure ExtractResult where
  extractCalled : Bool
  cooldownWritten : Option Nat
deriving DecidableEq

/-- `autoExtractFromSession`: cooldown gate, substance gate, the extract
POST (`extractOutcome = some status` models a completed HTTP exchange of
any status, `none` a thrown network/timeout error, whose catch returns
before the cooldown write), then the cooldown-flag write. -/
def autoExtractFromSession (env : ExtractEnv) : ExtractResult :=
  if extractCooldownBlocked env.cooldownFile env.now then
    { extractCalled := false, cooldownWritten := none }
  else
    match buildExtractionPayload env.lines with
    | none => { extractCalled := false, cooldownWritten := none }
    | some _ =>
      match env.extractOutcome with
      | none => { extractCalled := true, cooldownWritten := none }
      | some _ => { extractCalled := true, cooldownWritten := some env.now }

/-- Concrete fixtures: three substantial user turns and a network-failed
extract call. -/
def msgUserLong : Option Msg :=
  some { role := "user".data,
         text := "this user message is well over thirty characters long".data }

def linesC2 : List (Option Msg) := [msgUserLong, msgUserLong, msgUserLong]

def envC2 : ExtractEnv :=
  { now := 10000, cooldownFile := .absent, lines := linesC2,
    detectedProjectId := "proj".data, extractOutcome := none }

def textC2 : List Char :=
  trimChars ("this user message is well over thirty characters long".data)

def pC2 : ExtractPayload :=
  { userMessages := List.intercalate ("\n---\n".data) [textC2, textC2, textC2]
    assistantResponses := [] }

set_option maxRecDepth 40000 in
/-- C2 (counterexample): an attempt that passes the cooldown and substance
gates but whose extract call throws a network/timeout error does NOT write
the cooldown flag — contradicting the claim that the flag is written
regardless of a network/timeout failure. -/
theorem C2_extract_cooldown_counterexample :
    extractCooldownBlocked envC2.cooldownFile envC2.now = false ∧
    buildExtractionPayload envC2.lines = some pC2 ∧
    (autoExtractFromSession envC2).extractCalled = true ∧
    (autoExtractFromSession envC2).cooldownWritten = none := by decide

/-- C2 (amended): when the cooldown and substance gates pass, the
ExtractCooldown flag is written with the current Unix timestamp whenever
the remote extract call completes with any HTTP response — success or
non-2xx alike — but when the call fails with a network/timeout error the
function returns early and the flag is not written, so only completed
exchanges consume the cooldown window. -/
theorem C2_extract_cooldown_amended (env : ExtractEnv) (p : ExtractPayload)
    (hcool : extractCooldownBlocked env.cooldownFile env.now = false)
    (hpayload : buildExtractionPayload env.lines = some p) :
    (∀ s, env.extractOutcome = some s →
      autoExtractFromSession env =
        { extractCalled := true, cooldownWritten := some env.now }) ∧
    (env.extractOutcome = none →
      autoExtractFromSession env =
        { extractCalled := true, cooldownWritten := none }) := by
  constructor
  · intro s he
    simp [autoExtractFromSession, hcool, hpayload, he]
  · intro he
    simp [autoExtractFromSession, hcool, hpayload, he]

set_option maxRecDepth 40000 in
/-- Witness for the amended C2: the same gates with a completed HTTP
exchange write the cooldown flag. -/
theorem C2_extract_cooldown_amended_witness :
    autoExtractFromSession
        { now := 10000, cooldownFile := .absent, lines := linesC2,
          detectedProjectId := "proj".data, extractOutcome := some 500 } =
      { extractCalled := true, cooldownWritten := some 10000 } := by
  have h := C2_extract_cooldown_amended
    { now := 10000, cooldownFile := .absent, lines := linesC2,
      detectedProjectId := "proj".data, extractOutcome := some 500 }
    pC2 (by decide) (by decide)
  exact h.1 500 rfl

/-! ## Stop hook (runHookStop, src/cli.ts) -/

/-- `checkSessionSubstantial`: at least `minTranscriptLines` lines and at
least `minUserMessages` user turns whose trimmed text exceeds 10
characters. -/
def checkSessionSubstantial (lines : List (Option Msg)) : Bool :=
  if lines.length < SUMMARY_CONFIG.minTranscriptLines then false
  else
    decide (SUMMARY_CONFIG.minUserMessages ≤ lines.countP (fun line =>
      match line with
      | some msg => msg.role == ("user".data) && decide (10 < (trimChars msg.text).length)
      | none => false))

structure StopInput where
  session_id : List Char
  transcript_path : List Char
  cwd : List Char
  stop_hook_active : Bool
  last_assistant_message : List Char
deriving DecidableEq

structure StopEnv where
  now : Nat
  summaryFlag : FileState Nat
  transcriptLines : List (Option Msg)
  hasApiKey : Bool
  builtSummary : Option (List Char)
  summaryPostOutcome : Option Nat
  extractEnv : ExtractEnv
  unexpectedError : Bool
deriving DecidableEq

structure StopResult where
  printedEmpty : Bool
  summaryFlagWritten : Option Nat
  summaryAttempted : Option (List Char)
  errorLogged : Bool
  extract : Option ExtractResult
deriving DecidableEq

/-- A guarded early return of the stop hook: a `return` inside the `try`
block skips the trailing `console.log('{}')`, so nothing is printed. -/
def stopEarly : StopResult :=
  { printedEmpty := false, summaryFlagWritten := none, summaryAttempted := none,
    errorLogged := false, extract := none }

/-- Truncate the stop summary to `maxSummaryChars`. -/
def truncateStopSummary (s : List Char) : List Char :=
  if SUMMARY_CONFIG.maxSummaryChars < s.length then
    s.take (SUMMARY_CONFIG.maxSummaryChars - 3) ++ ("...".data)
  else s

/-- The summary-flag cooldown gate of the stop hook: blocked only when the
`summary-<session>` file parses and its age is under
`SUMMARY_CONFIG.cooldownSeconds`; a corrupt or absent file lets the save
continue. -/
def summaryFlagFresh (flag : FileState Nat) (now : Nat) : Bool :=
  match flag with
  | .parsed ts => decide (now - ts < SUMMARY_CONFIG.cooldownSeconds)
  | .unparsable => false
  | .absent => false

/-- `runHookStop`: the guarded early returns (stop-hook re-entry, missing
session id, fresh summary flag, missing transcript, insubstantial
session, unresolvable API key, failed or too-short summary) exit without
printing; a body that runs to completion posts the summary (failure
swallowed), writes the summary flag, attempts auto-extraction and prints
`{}`; an unexpected exception (`unexpectedError`) is caught, logged, and
still prints `{}` because the final `console.log` sits after the
try/catch. -/
def runHookStop (inp : StopInput) (env : StopEnv) : StopResult :=
  if env.unexpectedError then
    { printedEmpty := true, summaryFlagWritten := none, summaryAttempted := none,
      errorLogged := true, extract := none }
  else if inp.stop_hook_active then stopEarly
  else if inp.session_id.isEmpty then stopEarly
  else if summaryFlagFresh env.summaryFlag env.now then stopEarly
  else if inp.transcript_path.isEmpty then stopEarly
  else if !(checkSessionSubstantial env.transcriptLines) then stopEarly
  else if !env.hasApiKey then stopEarly
  else
    match env.builtSummary with
    | none => stopEarly
    | some s0 =>
      if s0.isEmpty || s0.length < 20 then stopEarly
      else
        { printedEmpty := true
          summaryFlagWritten := some env.now
          summaryAttempted := some (truncateStopSummary s0)
          errorLogged := false
          extract := some (autoExtractFromSession env.extractEnv) }

/-- Concrete fixtures: a stop-hook re-entry invocation, and a completing
invocation over a substantial transcript. -/
def inpC4 : StopInput :=
  { session_id := "s1".data, transcript_path := ['/', 't'], cwd := [],
    stop_hook_active := true, last_assistant_message := [] }

def stopEnvC4 : StopEnv :=
  { now := 5000, summaryFlag := .absent, transcriptLines := [], hasApiKey := true,
    builtSummary := none, summaryPostOutcome := none,
    extractEnv := { now := 5000, cooldownFile := .absent, lines := [],
                    detectedProjectId := [], extractOutcome := none },
    unexpectedError := false }

def msgUserMedium : Option Msg :=
  some { role := "user".data, text := "hello there friend, ok".data }

def linesC4 : List (Option Msg) :=
  [msgUserMedium, msgUserMedium, msgUserMedium, msgUserMedium,
   msgUserMedium, msgUserMedium, msgUserMedium, msgUserMedium]

def inpC4ok : StopInput :=
  { session_id := "s1".data, transcript_path := ['/', 't'], cwd := [],
    stop_hook_active := false, last_assistant_message := [] }

def stopEnvC4ok : StopEnv :=
  { now := 5000, summaryFlag := .absent, transcriptLines := linesC4, hasApiKey := true,
    builtSummary := some ("Session ended; did many things today".data),
    summaryPostOutcome := some 200,
    extractEnv := { now := 5000, cooldownFile := .absent, lines := [],
                    detectedProjectId := [], extractOutcome := none },
    unexpectedError := false }

/-- C4 (counterexample): a stop-hook invocation with `stop_hook_active`
set takes the guarded early return and prints nothing, contradicting the
claim that every invocation prints the empty-acknowledgement `{}`. -/
theorem C4_stop_prints_counterexample :
    inpC4.stop_hook_active = true ∧
    (runHookStop inpC4 stopEnvC4).printedEmpty = false := by decide

/-- Exact characterization of the stop hook's output: when no unexpected
exception occurs, `{}` is printed exactly when every guarded early return
is avoided — no stop-hook re-entry, a session id, no fresh summary flag,
a transcript path, a substantial session, a resolvable API key, and a
built summary of at least 20 characters. -/
theorem runHookStop_printedEmpty_iff (inp : StopInput) (env : StopEnv)
    (he : env.unexpectedError = false) :
    (runHookStop inp env).printedEmpty = true ↔
      inp.stop_hook_active = false ∧ inp.session_id ≠ [] ∧
      summaryFlagFresh env.summaryFlag env.now = false ∧
      inp.transcript_path ≠ [] ∧
      checkSessionSubstantial env.transcriptLines = true ∧
      env.hasApiKey = true ∧
      ∃ s0, env.builtSummary = some s0 ∧ s0 ≠ [] ∧ 20 ≤ s0.length := by
  unfold runHookStop
  simp only [he, Bool.false_eq_true, if_false]
  repeat' split
  all_goals simp_all [stopEarly]
  all_goals tauto

/-- C4 (amended): `runHookStop` prints `{}` on every invocation whose body
raises an unexpected exception (caught and logged) and on every invocation
that runs to completion (observable by the summary flag being written);
each of the seven guarded early returns — stop-hook re-entry, missing
session id, fresh summary-flag cooldown, missing transcript path,
insubstantial session, unresolvable API key, failed or too-short
summary — exits without printing anything; and conversely printing only
happens when every guard is passed. -/
theorem C4_stop_prints_amended (inp : StopInput) (env : StopEnv) :
    (env.unexpectedError = true → (runHookStop inp env).printedEmpty = true) ∧
    ((runHookStop inp env).summaryFlagWritten.isSome = true →
      (runHookStop inp env).printedEmpty = true) ∧
    (env.unexpectedError = false → inp.stop_hook_active = true →
      (runHookStop inp env).printedEmpty = false) ∧
    (env.unexpectedError = false → inp.session_id = [] →
      (runHookStop inp env).printedEmpty = false) ∧
    (env.unexpectedError = false → summaryFlagFresh env.summaryFlag env.now = true →
      (runHookStop inp env).printedEmpty = false) ∧
    (env.unexpectedError = false → inp.transcript_path = [] →
      (runHookStop inp env).printedEmpty = false) ∧
    (env.unexpectedError = false → checkSessionSubstantial env.transcriptLines = false →
      (runHookStop inp env).printedEmpty = false) ∧
    (env.unexpectedError = false → env.hasApiKey = false →
      (runHookStop inp env).printedEmpty = false) ∧
    (env.unexpectedError = false → env.builtSummary = none →
      (runHookStop inp env).printedEmpty = false) ∧
    (env.unexpectedError = false → ∀ s0, env.builtSummary = some s0 →
      s0 = [] ∨ s0.length < 20 → (runHookStop inp env).printedEmpty = false) ∧
    (env.unexpectedError = false → (runHookStop inp env).printedEmpty = true →
      inp.stop_hook_active = false ∧ inp.session_id ≠ [] ∧
      summaryFlagFresh env.summaryFlag env.now = false ∧
      inp.transcript_path ≠ [] ∧
      checkSessionSubstantial env.transcriptLines = true ∧
      env.hasApiKey = true ∧
      ∃ s0, env.builtSummary = some s0 ∧ s0 ≠ [] ∧ 20 ≤ s0.length) := by
  have hnp : ∀ he : env.unexpectedError = false,
      (runHookStop inp env).printedEmpty = true → _ :=
    fun he => (runHookStop_printedEmpty_iff inp env he).mp
  refine ⟨?_, ?_, ?_, ?_, ?_, ?_, ?_, ?_, ?_, ?_, fun he => hnp he⟩
  · intro he
    simp [runHookStop, he]
  · intro h
    unfold runHookStop at h ⊢
    repeat' split at h
    all_goals simp_all [stopEarly]
    all_goals rw [if_neg (by omega)]
  · intro he hg
    by_contra hp
    rw [Bool.not_eq_false] at hp
    exact absurd (hnp he hp).1 (by simp [hg])
  · intro he hg
    by_contra hp
    rw [Bool.not_eq_false] at hp
    exact (hnp he hp).2.1 hg
  · intro he hg
    by_contra hp
    rw [Bool.not_eq_false] at hp
    exact absurd (hnp he hp).2.2.1 (by simp [hg])
  · intro he hg
    by_contra hp
    rw [Bool.not_eq_false] at hp
    exact (hnp he hp).2.2.2.1 hg
  · intro he hg
    by_contra hp
    rw [Bool.not_eq_false] at hp
    exact absurd (hnp he hp).2.2.2.2.1 (by simp [hg])
  · intro he hg
    by_contra hp
    rw [Bool.not_eq_false] at hp
    exact absurd (hnp he hp).2.2.2.2.2.1 (by simp [hg])
  · intro he hg
    by_contra hp
    rw [Bool.not_eq_false] at hp
    obtain ⟨s0, hs0, -, -⟩ := (hnp he hp).2.2.2.2.2.2
    rw [hg] at hs0
    exact Option.noConfusion hs0
  · intro he s0 hsome hshort
    by_contra hp
    rw [Bool.not_eq_false] at hp
    obtain ⟨s1, hs1, hne, hlen⟩ := (hnp he hp).2.2.2.2.2.2
    rw [hsome] at hs1
    obtain rfl := Option.some.inj hs1
    rcases hshort with h0 | h0
    · exact hne h0
    · omega

/-- Witness for the amended C4: the completing invocation writes the flag
and prints `{}`, the erroring invocation still prints `{}`, and the
stop-hook re-entry and missing-API-key invocations print nothing. -/
theorem C4_stop_prints_amended_witness :
    (runHookStop inpC4ok stopEnvC4ok).summaryFlagWritten.isSome = true ∧
    (runHookStop inpC4ok stopEnvC4ok).printedEmpty = true ∧
    (runHookStop inpC4ok { stopEnvC4ok with unexpectedError := true }).printedEmpty
      = true ∧
    (runHookStop inpC4 stopEnvC4).printedEmpty = false ∧
    (runHookStop inpC4ok { stopEnvC4ok with hasApiKey := false }).printedEmpty
      = false := by
  have h := C4_stop_prints_amended inpC4ok stopEnvC4ok
  have h2 := C4_stop_prints_amended inpC4ok { stopEnvC4ok with unexpectedError := true }
  have h3 := C4_stop_prints_amended inpC4 stopEnvC4
  have h4 := C4_stop_prints_amended inpC4ok { stopEnvC4ok with hasApiKey := false }
  exact ⟨by decide, h.2.1 (by decide), h2.1 rfl, h3.2.2.1 rfl rfl,
    h4.2.2.2.2.2.2.2.1 rfl rfl⟩
